import Mathlib

/-!
Shallow embedding of the context-fusion retrieval pipeline of Project Nyaya:
`backend/web_fetcher.py` (page fetcher, cache, fusion engine) and the
fusion/fallback step of `_call_groq_analyze` in `backend/main.py`.

Conventions of the embedding:
* The network is an oracle `client : String → NetOutcome` giving, for each URL,
  the outcome of one `client.get(url, ...)` call: an `httpx` response (status
  code and body) or one of the exception classes caught by the `except` arms.
* HTML-to-text extraction (`_extract_text`, a BeautifulSoup computation over
  the response body) is an oracle `extract : String → String`.
* `time.time()` is a `Nat` number of seconds passed in explicitly.
* The module-level dict `_cache` is threaded explicitly as an association list.
* Python strings are Lean `String`s; `len` is `String.length` (code points) and
  slicing `text[:n]` is `strTake` (take `n` code points).
-/

namespace Nyaya

/-- One entry of a `GOVERNMENT_SOURCES` list: a `{"url": ..., "label": ...}` dict. -/
structure Source where
  url : String
  label : String
deriving DecidableEq, Repr

/-- `CACHE_TTL` from `web_fetcher.py` (seconds). -/
def CACHE_TTL : Nat := 3600

/-- `MIN_CONTENT_LEN` from `web_fetcher.py`. -/
def MIN_CONTENT_LEN : Nat := 100

/-- `MAX_CHARS_PER_SOURCE` from `web_fetcher.py`. -/
def MAX_CHARS_PER_SOURCE : Nat := 3500

/-- The `GOVERNMENT_SOURCES` dict of `web_fetcher.py`, in source order. -/
def GOVERNMENT_SOURCES : List (String × List Source) :=
  [ ("RTI",
     [ ⟨"https://rtionline.gov.in/",
        "RTI Online Portal — Official Portal (NIC / DoPT)"⟩,
       ⟨"https://cic.gov.in/",
        "Central Information Commission (CIC) — Official Portal"⟩,
       ⟨"https://doj.gov.in/right-to-information",
        "Department of Justice — Right to Information"⟩,
       ⟨"https://www.indiacode.nic.in/handle/123456789/1879",
        "India Code — Right to Information Act 2005 (Official Legislation Repository)"⟩ ]),
    ("Domestic Violence",
     [ ⟨"https://www.indiacode.nic.in/handle/123456789/15436",
        "India Code — Protection of Women from Domestic Violence Act 2005"⟩,
       ⟨"https://nalsa.gov.in/",
        "National Legal Services Authority (NALSA) — Free Legal Aid"⟩,
       ⟨"https://cic.gov.in/",
        "Central Information Commission — Legal Resources"⟩ ]),
    ("Divorce",
     [ ⟨"https://www.indiacode.nic.in/handle/123456789/2055",
        "India Code — Hindu Marriage Act 1955 (Official Legislation Repository)"⟩,
       ⟨"https://nalsa.gov.in/",
        "National Legal Services Authority (NALSA) — Free Legal Aid for Family Disputes"⟩,
       ⟨"https://doj.gov.in/right-to-information",
        "Department of Justice — Legal Resources"⟩ ]) ]

/-- Python `GOVERNMENT_SOURCES.get(intent, [])`. -/
def getSources (intent : String) : List Source :=
  (GOVERNMENT_SOURCES.lookup intent).getD []

/-- Outcome of one `client.get(url, ...)` call inside `_fetch_one`: an HTTP
response, or one of the exceptions caught by the two `except` arms
(`httpx.TimeoutException`, `httpx.NetworkError`, or any other `Exception`). -/
inductive NetOutcome where
  | response (status : Nat) (body : String)
  | timeout
  | netError
  | otherError
deriving DecidableEq, Repr

/-- The module-level `_cache : dict[str, tuple[str, float]]`, keyed by URL,
modelled as an association list (most recent binding first). -/
abbrev Cache := List (String × (String × Nat))

/-- Dict read: `_cache[url]` when `url in _cache`, else `none`. -/
def cacheLookup (cache : Cache) (url : String) : Option (String × Nat) :=
  cache.lookup url

/-- Dict write `_cache[url] = v`, replacing any previous binding for `url`. -/
def cacheInsert (cache : Cache) (url : String) (v : String × Nat) : Cache :=
  (url, v) :: cache.filter (fun e => e.1 != url)

/-- Python slicing `text[:n]` by code points. -/
def strTake (s : String) (n : Nat) : String :=
  ⟨s.data.take n⟩

/-- The `try`/`except` part of `_fetch_one` (everything after the cache check):
issue the GET, reject non-200 statuses and too-short extractions, truncate,
cache, and return the text annotated with its source label; every caught
exception yields `none`. -/
def fetchNetwork (client : String → NetOutcome) (extract : String → String)
    (now : Nat) (cache : Cache) (src : Source) : Option String × Cache :=
  match client src.url with
  | .response status body =>
      if status ≠ 200 then (none, cache)
      else if (extract body).length < MIN_CONTENT_LEN then (none, cache)
      else
        (some ("[Source: " ++ src.label ++ "]\n" ++
           strTake (extract body) MAX_CHARS_PER_SOURCE),
         cacheInsert cache src.url (strTake (extract body) MAX_CHARS_PER_SOURCE, now))
  | .timeout => (none, cache)
  | .netError => (none, cache)
  | .otherError => (none, cache)

/-- `_fetch_one`: serve a non-expired cache entry without touching the network,
otherwise take the network path. -/
def fetchOne (client : String → NetOutcome) (extract : String → String)
    (now : Nat) (cache : Cache) (src : Source) : Option String × Cache :=
  match cacheLookup cache src.url with
  | some (text, ts) =>
      if now - ts < CACHE_TTL then
        (some ("[Source: " ++ src.label ++ "]\n" ++ text), cache)
      else fetchNetwork client extract now cache src
  | none => fetchNetwork client extract now cache src

/-- Number of HTTP GETs one `_fetch_one` call issues: the single `client.get`
is reached exactly when the cache holds no fresh entry; the code has no retry
loop. -/
def fetchOneNetCalls (now : Nat) (cache : Cache) (src : Source) : Nat :=
  match cacheLookup cache src.url with
  | some (_, ts) => if now - ts < CACHE_TTL then 0 else 1
  | none => 1

/-- Results of the gathered `_fetch_one` tasks in dispatch (configured) order:
`asyncio.gather` preserves argument order in its result list. The shared
`_cache` is threaded through the tasks; the URLs within one call are distinct,
so this sequential threading agrees with any task interleaving. -/
def fetchAll (client : String → NetOutcome) (extract : String → String)
    (now : Nat) : Cache → List Source → List (Option String) × Cache
  | cache, [] => ([], cache)
  | cache, src :: rest =>
      let r := fetchOne client extract now cache src
      let rs := fetchAll client extract now r.2 rest
      (r.1 :: rs.1, rs.2)

/-- The result-acceptance loop of `fetch_government_context`: walk the
`zip(sources[:3], results)` pairs in configured order, append each truthy
string result (text to `combined`, label to `sources_used`), and break as soon
as `combined` holds two entries. -/
def acceptLoop : List (Source × Option String) → List String → List String →
    List String × List String
  | [], combined, used => (combined, used)
  | (src, some s) :: rest, combined, used =>
      if s = "" then
        if combined.length ≥ 2 then (combined, used)
        else acceptLoop rest combined used
      else
        if (combined ++ [s]).length ≥ 2 then (combined ++ [s], used ++ [src.label])
        else acceptLoop rest (combined ++ [s]) (used ++ [src.label])
  | (_, none) :: rest, combined, used =>
      if combined.length ≥ 2 then (combined, used)
      else acceptLoop rest combined used

/-- Python `sep.join(l)`. -/
def joinSep (sep : String) : List String → String
  | [] => ""
  | [a] => a
  | a :: rest => a ++ sep ++ joinSep sep rest

/-- `fetch_government_context(intent)`: look up the configured
sources, fetch the first three, accept up to two successes in configured
order, and join them with the visible separator; also returns the final cache
state. An unconfigured intent yields `("", [])` with the cache untouched. -/
def fetchGovernmentContext (client : String → NetOutcome) (extract : String → String)
    (now : Nat) (cache : Cache) (intent : String) : (String × List String) × Cache :=
  match getSources intent with
  | [] => (("", []), cache)
  | s :: ss =>
      let srcs := (s :: ss).take 3
      let fr := fetchAll client extract now cache srcs
      let au := acceptLoop (srcs.zip fr.1) [] []
      ((joinSep "\n\n---\n\n" au.1, au.2), fr.2)

/-- Time at which `fetch_government_context` returns, given the completion
time of each dispatched fetch task (keyed by URL). The code executes
`results = await asyncio.gather(*tasks)`, and `gather` resolves only once
every task has resolved, so the coroutine resumes at the latest completion
time among the dispatched tasks; the acceptance loop after the `await` is
synchronous. An unconfigured intent returns before dispatching anything. -/
def fetchReturnTime (dur : String → Nat) (intent : String) : Nat :=
  match getSources intent with
  | [] => 0
  | s :: ss => (((s :: ss).take 3).map (fun src => dur src.url)).foldr max 0

/-- Step 3 of `_call_groq_analyze` in `main.py`: the fusion/fallback decision
`if web_context and len(web_context) >= 300`. Returns
`(context_source, fused_context, sources_used)`. -/
def fuseContext (webContext ragContext : String) (sourcesUsed : List String) :
    String × String × List String :=
  if webContext ≠ "" ∧ 300 ≤ webContext.length then
    ("WEB+RAG",
     "=== LIVE DATA FROM OFFICIAL GOVERNMENT PORTALS ===\n" ++ webContext ++
       "\n\n" ++ "=== ADDITIONAL CONTEXT FROM LEGAL KNOWLEDGE BASE ===\n" ++ ragContext,
     sourcesUsed)
  else
    ("RAG",
     "=== CONTEXT FROM LEGAL KNOWLEDGE BASE ===\n" ++ ragContext,
     [])

/-- A ChromaDB metadata dict, as far as the topic peek reads it. -/
abbrev Metadata := List (String × String)

/-- The dominant-topic selection in `_call_groq_analyze` (`main.py`): start
from the default `"RTI"`; when `top_results["metadatas"]` is truthy and its
first element is truthy, use `metadatas[0][0].get("topic", "RTI")`. -/
def dominantIntent (metadatas : Option (List (List Metadata))) : String :=
  match metadatas with
  | some ((md :: _) :: _) => (md.lookup "topic").getD "RTI"
  | _ => "RTI"

/-! ### Helper lemmas -/

set_option maxRecDepth 100000

/-- Every member of a list of naturals is bounded by its `foldr max 0`. -/
theorem le_foldr_max (l : List Nat) (x : Nat) (h : x ∈ l) : x ≤ l.foldr max 0 := by
  induction l with
  | nil => simp at h
  | cons a as ih =>
      simp only [List.foldr_cons]
      rcases List.mem_cons.mp h with rfl | h
      · exact le_max_left _ _
      · exact (ih h).trans (le_max_right _ _)

/-- A string of length zero is the empty string. -/
theorem eq_empty_of_length_eq_zero (s : String) (h : s.length = 0) : s = "" := by
  cases s with
  | mk data =>
      cases data with
      | nil => rfl
      | cons c cs => simp [String.length] at h

/-- A joined nonempty list decomposes as its head followed by a remainder. -/
theorem joinSep_cons_decomp (sep a : String) :
    ∀ rest : List String, ∃ t, joinSep sep (a :: rest) = a ++ t
  | [] => ⟨"", by simp [joinSep]⟩
  | b :: bs => ⟨sep ++ joinSep sep (b :: bs), by simp [joinSep, String.append_assoc]⟩

/-- Joining a list whose head is a nonempty string yields a nonempty string. -/
theorem joinSep_cons_ne_empty (sep a : String) (rest : List String) (ha : a ≠ "") :
    joinSep sep (a :: rest) ≠ "" := by
  obtain ⟨t, ht⟩ := joinSep_cons_decomp sep a rest
  rw [ht]
  intro hcontra
  have hlen := congrArg String.length hcontra
  simp only [String.length_append, String.length_empty] at hlen
  exact ha (eq_empty_of_length_eq_zero a (by omega))

/-- The acceptance loop keeps `combined` and `sources_used` in lockstep and
never accepts more than two results. -/
theorem acceptLoop_length :
    ∀ (pairs : List (Source × Option String)) (c u : List String),
      c.length = u.length → c.length ≤ 1 →
      (acceptLoop pairs c u).1.length = (acceptLoop pairs c u).2.length ∧
      (acceptLoop pairs c u).1.length ≤ 2 := by
  intro pairs
  induction pairs with
  | nil =>
      intro c u h h1
      simp only [acceptLoop]
      exact ⟨h, by omega⟩
  | cons p rest ih =>
      intro c u h h1
      obtain ⟨src, res⟩ := p
      cases res with
      | none =>
          simp only [acceptLoop]
          rw [if_neg (by omega)]
          exact ih c u h h1
      | some s =>
          simp only [acceptLoop]
          by_cases hs : s = ""
          · rw [if_pos hs, if_neg (by omega)]
            exact ih c u h h1
          · rw [if_neg hs]
            by_cases h2 : (c ++ [s]).length ≥ 2
            · rw [if_pos h2]
              constructor
              · simp [h]
              · simp only [List.length_append, List.length_cons, List.length_nil] at h2 ⊢
                omega
            · rw [if_neg h2]
              refine ih (c ++ [s]) (u ++ [src.label]) (by simp [h]) ?_
              simp only [List.length_append, List.length_cons, List.length_nil] at h2 ⊢
              omega

/-- `sources_used` grows by a subsequence of the labels of the walked pairs,
in their order. -/
theorem acceptLoop_used_sublist :
    ∀ (pairs : List (Source × Option String)) (c u : List String),
      ∃ t, (acceptLoop pairs c u).2 = u ++ t ∧
        t.Sublist (pairs.map fun p => p.1.label) := by
  intro pairs
  induction pairs with
  | nil =>
      intro c u
      exact ⟨[], by simp [acceptLoop], List.nil_sublist _⟩
  | cons p rest ih =>
      intro c u
      obtain ⟨src, res⟩ := p
      cases res with
      | none =>
          simp only [acceptLoop, List.map_cons]
          by_cases hb : c.length ≥ 2
          · rw [if_pos hb]
            exact ⟨[], by simp, List.nil_sublist _⟩
          · rw [if_neg hb]
            obtain ⟨t, ht, hsub⟩ := ih c u
            exact ⟨t, ht, hsub.cons _⟩
      | some s =>
          simp only [acceptLoop, List.map_cons]
          by_cases hs : s = ""
          · rw [if_pos hs]
            by_cases hb : c.length ≥ 2
            · rw [if_pos hb]
              exact ⟨[], by simp, List.nil_sublist _⟩
            · rw [if_neg hb]
              obtain ⟨t, ht, hsub⟩ := ih c u
              exact ⟨t, ht, hsub.cons _⟩
          · rw [if_neg hs]
            by_cases hb : (c ++ [s]).length ≥ 2
            · rw [if_pos hb]
              exact ⟨[src.label], rfl, (List.nil_sublist _).cons₂ _⟩
            · rw [if_neg hb]
              obtain ⟨t, ht, hsub⟩ := ih (c ++ [s]) (u ++ [src.label])
              exact ⟨src.label :: t, by simp [ht], hsub.cons₂ _⟩

/-- Every text accepted into `combined` is a nonempty string (the loop only
accepts truthy results). -/
theorem acceptLoop_combined_ne_empty :
    ∀ (pairs : List (Source × Option String)) (c u : List String),
      (∀ x ∈ c, x ≠ "") → ∀ x ∈ (acceptLoop pairs c u).1, x ≠ "" := by
  intro pairs
  induction pairs with
  | nil =>
      intro c u hc
      simpa only [acceptLoop] using hc
  | cons p rest ih =>
      intro c u hc
      obtain ⟨src, res⟩ := p
      cases res with
      | none =>
          simp only [acceptLoop]
          by_cases hb : c.length ≥ 2
          · rw [if_pos hb]; exact hc
          · rw [if_neg hb]; exact ih c u hc
      | some s =>
          simp only [acceptLoop]
          by_cases hs : s = ""
          · rw [if_pos hs]
            by_cases hb : c.length ≥ 2
            · rw [if_pos hb]; exact hc
            · rw [if_neg hb]; exact ih c u hc
          · rw [if_neg hs]
            have hc' : ∀ x ∈ c ++ [s], x ≠ "" := by
              intro x hx
              rcases List.mem_append.mp hx with hx | hx
              · exact hc x hx
              · simp only [List.mem_singleton] at hx
                exact hx ▸ hs
            by_cases hb : (c ++ [s]).length ≥ 2
            · rw [if_pos hb]; exact hc'
            · rw [if_neg hb]; exact ih (c ++ [s]) (u ++ [src.label]) hc'

/-- The gathered result list has one entry per dispatched source. -/
theorem fetchAll_length (client : String → NetOutcome) (extract : String → String)
    (now : Nat) :
    ∀ (l : List Source) (cache : Cache),
      (fetchAll client extract now cache l).1.length = l.length := by
  intro l
  induction l with
  | nil => intro cache; simp [fetchAll]
  | cons src rest ih => intro cache; simp [fetchAll, ih]

/-- Reading back a key just written to the cache yields the written value. -/
theorem cacheLookup_cacheInsert (cache : Cache) (url : String) (v : String × Nat) :
    cacheLookup (cacheInsert cache url v) url = some v := by
  simp [cacheLookup, cacheInsert, List.lookup]

/-- Shape of a successful network-path fetch: the returned text is the labelled
truncated extraction and the cache gains exactly that entry, stamped `now`. -/
theorem fetchNetwork_success (client : String → NetOutcome) (extract : String → String)
    (now : Nat) (cache : Cache) (src : Source) (r : String) (c' : Cache)
    (h : fetchNetwork client extract now cache src = (some r, c')) :
    ∃ text, r = "[Source: " ++ src.label ++ "]\n" ++ text ∧
      c' = cacheInsert cache src.url (text, now) := by
  unfold fetchNetwork at h
  split at h
  case h_1 status body heq =>
    split at h
    · exact absurd (congrArg Prod.fst h) (by simp)
    · split at h
      · exact absurd (congrArg Prod.fst h) (by simp)
      · refine ⟨strTake (extract body) MAX_CHARS_PER_SOURCE, ?_, ?_⟩
        · have := congrArg Prod.fst h
          simpa using this.symm
        · have := congrArg Prod.snd h
          simpa using this.symm
  case h_2 => exact absurd (congrArg Prod.fst h) (by simp)
  case h_3 => exact absurd (congrArg Prod.fst h) (by simp)
  case h_4 => exact absurd (congrArg Prod.fst h) (by simp)

/-- A fetch depends on the network oracle only through the fetched URL. -/
theorem fetchOne_congr (client client2 : String → NetOutcome)
    (extract : String → String) (now : Nat) (cache : Cache) (src : Source)
    (h : client2 src.url = client src.url) :
    fetchOne client2 extract now cache src = fetchOne client extract now cache src := by
  unfold fetchOne fetchNetwork
  rw [h]

/-- The gathered fetches depend on the network oracle only through the
dispatched URLs. -/
theorem fetchAll_congr (client client2 : String → NetOutcome)
    (extract : String → String) (now : Nat) :
    ∀ (l : List Source) (cache : Cache),
      (∀ src ∈ l, client2 src.url = client src.url) →
      fetchAll client2 extract now cache l = fetchAll client extract now cache l := by
  intro l
  induction l with
  | nil => intro cache _; rfl
  | cons src rest ih =>
      intro cache hagree
      simp only [fetchAll]
      rw [fetchOne_congr client client2 extract now cache src
            (hagree src (List.mem_cons_self _ _)),
          ih _ (fun s hs => hagree s (List.mem_cons_of_mem _ hs))]

/-- The labels of the first three configured sources of any intent are
pairwise distinct. -/
theorem labels_nodup (intent : String) :
    (((getSources intent).take 3).map Source.label).Nodup := by
  by_cases h1 : intent = "RTI"
  · subst h1; decide
  by_cases h2 : intent = "Domestic Violence"
  · subst h2; decide
  by_cases h3 : intent = "Divorce"
  · subst h3; decide
  have e1 : (intent == "RTI") = false := beq_eq_false_iff_ne.mpr h1
  have e2 : (intent == "Domestic Violence") = false := beq_eq_false_iff_ne.mpr h2
  have e3 : (intent == "Divorce") = false := beq_eq_false_iff_ne.mpr h3
  have : getSources intent = [] := by
    simp [getSources, GOVERNMENT_SOURCES, List.lookup, e1, e2, e3]
  simp [this]

/-- Unfolding of the fusion engine on a configured (nonempty) source list. -/
theorem fetchGovernmentContext_cons (client : String → NetOutcome)
    (extract : String → String) (now : Nat) (cache : Cache) (intent : String)
    (s : Source) (ss : List Source) (hgs : getSources intent = s :: ss) :
    fetchGovernmentContext client extract now cache intent =
      ((joinSep "\n\n---\n\n"
          (acceptLoop (((s :: ss).take 3).zip
            (fetchAll client extract now cache ((s :: ss).take 3)).1) [] []).1,
        (acceptLoop (((s :: ss).take 3).zip
            (fetchAll client extract now cache ((s :: ss).take 3)).1) [] []).2),
       (fetchAll client extract now cache ((s :: ss).take 3)).2) := by
  unfold fetchGovernmentContext
  rw [hgs]

/-! ### Concrete inputs used by witnesses and counterexamples -/

/-- A 120-character page body used by the concrete scenarios. -/
def exBody : String := String.mk (List.replicate 120 'x')

/-- Identity extraction oracle. -/
def exExtract : String → String := fun s => s

/-- Extraction oracle producing only 80 characters (below `MIN_CONTENT_LEN`). -/
def exShortExtract : String → String := fun _ => String.mk (List.replicate 80 'y')

/-- Network oracle where every URL answers 200 with `exBody`. -/
def exClientOk : String → NetOutcome := fun _ => .response 200 exBody

/-- Network oracle where the CIC portal answers 404 and every other URL
answers 200 with `exBody`. -/
def exClient404cic : String → NetOutcome := fun u =>
  if u = "https://cic.gov.in/" then .response 404 "" else .response 200 exBody

/-- Network oracle answering 404 everywhere. -/
def exClient404 : String → NetOutcome := fun _ => .response 404 ""

/-- Network oracle timing out everywhere. -/
def exTimeoutClient : String → NetOutcome := fun _ => .timeout

/-- Network oracle failing with a network error everywhere. -/
def exNetErrClient : String → NetOutcome := fun _ => .netError

/-- Network oracle failing with a non-network exception everywhere. -/
def exErrClient : String → NetOutcome := fun _ => .otherError

/-- Task durations where the third RTI source is slow (100 s) and every other
task resolves after 1 s. -/
def exDurSlow3 : String → Nat := fun u =>
  if u = "https://doj.gov.in/right-to-information" then 100 else 1

/-- First configured RTI source. -/
def rtiSrc1 : Source :=
  ⟨"https://rtionline.gov.in/", "RTI Online Portal — Official Portal (NIC / DoPT)"⟩

/-- Second configured RTI source. -/
def rtiSrc2 : Source :=
  ⟨"https://cic.gov.in/", "Central Information Commission (CIC) — Official Portal"⟩

/-- Third configured RTI source. -/
def rtiSrc3 : Source :=
  ⟨"https://doj.gov.in/right-to-information", "Department of Justice — Right to Information"⟩

/-- Formatted text fetched from the first RTI source answering `exBody`. -/
def exR1 : String := "[Source: " ++ rtiSrc1.label ++ "]\n" ++ exBody

/-- Formatted text fetched from the third RTI source answering `exBody`. -/
def exR3 : String := "[Source: " ++ rtiSrc3.label ++ "]\n" ++ exBody

/-- Cache state after one successful fetch of the first RTI source at time 0. -/
def exCache1 : Cache := [("https://rtionline.gov.in/", (exBody, 0))]

/-- Cache state after re-fetching the first RTI source at time 5000. -/
def exCache5000 : Cache := [("https://rtionline.gov.in/", (exBody, 5000))]

/-- Oracle agreeing with `exClientOk` on the first three RTI URLs but timing
out on the fourth (India Code) URL. -/
def exClient4thDiff : String → NetOutcome := fun u =>
  if u = "https://www.indiacode.nic.in/handle/123456789/1879" then .timeout
  else .response 200 exBody

/-! ### Claims -/

/-- C1: in the top-level fusion policy, a web context of length at least 300
yields the web context followed by the RAG context, the `"WEB+RAG"` provenance
tag, and `sources_used` kept as returned; a web context of length at most 299
(including the empty one) yields a RAG-only context, the `"RAG"` tag, and
`sources_used` reset to the empty list. -/
theorem C1_fusion_threshold (web rag : String) (used : List String) :
    (300 ≤ web.length →
      fuseContext web rag used =
        ("WEB+RAG",
         "=== LIVE DATA FROM OFFICIAL GOVERNMENT PORTALS ===\n" ++ web ++
           "\n\n" ++ "=== ADDITIONAL CONTEXT FROM LEGAL KNOWLEDGE BASE ===\n" ++ rag,
         used)) ∧
    (web.length ≤ 299 →
      fuseContext web rag used =
        ("RAG", "=== CONTEXT FROM LEGAL KNOWLEDGE BASE ===\n" ++ rag, [])) := by
  constructor
  · intro h
    have hne : web ≠ "" := by
      intro he
      rw [he] at h
      simp [String.length_empty] at h
    rw [fuseContext, if_pos ⟨hne, h⟩]
  · intro h
    have hcond : ¬ (web ≠ "" ∧ 300 ≤ web.length) := by
      rintro ⟨-, h300⟩
      omega
    rw [fuseContext, if_neg hcond]

/-- Witness for C1 at a 300-character and at a 299-character web context. -/
theorem C1_fusion_threshold_witness :
    (300 ≤ (String.mk (List.replicate 300 'w')).length ∧
      fuseContext (String.mk (List.replicate 300 'w')) "RAGDATA" ["portal"] =
        ("WEB+RAG",
         "=== LIVE DATA FROM OFFICIAL GOVERNMENT PORTALS ===\n" ++
           String.mk (List.replicate 300 'w') ++ "\n\n" ++
           "=== ADDITIONAL CONTEXT FROM LEGAL KNOWLEDGE BASE ===\n" ++ "RAGDATA",
         ["portal"])) ∧
    ((String.mk (List.replicate 299 'w')).length ≤ 299 ∧
      fuseContext (String.mk (List.replicate 299 'w')) "RAGDATA" ["portal"] =
        ("RAG", "=== CONTEXT FROM LEGAL KNOWLEDGE BASE ===\n" ++ "RAGDATA", [])) :=
  ⟨⟨by decide, (C1_fusion_threshold _ "RAGDATA" ["portal"]).1 (by decide)⟩,
   ⟨by decide, (C1_fusion_threshold _ "RAGDATA" ["portal"]).2 (by decide)⟩⟩

/-- C5: a failing single-source fetch — non-200 status, timeout, network
error, or any other exception — yields the absence value `none` instead of
propagating an exception, issues at most one GET (no retry), and a `none`
result is simply skipped by the fusion acceptance loop. -/
theorem C5_failure_absence (client : String → NetOutcome) (extract : String → String)
    (now : Nat) (cache : Cache) (src : Source) :
    (∀ status body, client src.url = .response status body → status ≠ 200 →
      fetchNetwork client extract now cache src = (none, cache)) ∧
    (client src.url = .timeout → fetchNetwork client extract now cache src = (none, cache)) ∧
    (client src.url = .netError → fetchNetwork client extract now cache src = (none, cache)) ∧
    (client src.url = .otherError → fetchNetwork client extract now cache src = (none, cache)) ∧
    fetchOneNetCalls now cache src ≤ 1 ∧
    (∀ (rest : List (Source × Option String)) (c u : List String), c.length < 2 →
      acceptLoop ((src, (none : Option String)) :: rest) c u = acceptLoop rest c u) := by
  refine ⟨?_, ?_, ?_, ?_, ?_, ?_⟩
  · intro status body h hst
    unfold fetchNetwork
    rw [h]
    simp [hst]
  · intro h
    unfold fetchNetwork
    rw [h]
  · intro h
    unfold fetchNetwork
    rw [h]
  · intro h
    unfold fetchNetwork
    rw [h]
  · unfold fetchOneNetCalls
    split
    · split
      · exact Nat.zero_le 1
      · exact le_refl 1
    · exact le_refl 1
  · intro rest c u hlen
    simp only [acceptLoop]
    rw [if_neg (by omega)]

/-- Witness for C5: a 404, a timeout, a network error and a generic exception
each produce `none` with the cache untouched; one GET is budgeted; the failed
source is skipped by the acceptance loop. -/
theorem C5_failure_absence_witness :
    (exClient404 rtiSrc1.url = NetOutcome.response 404 "") ∧ (404 ≠ 200) ∧
    fetchNetwork exClient404 exExtract 0 [] rtiSrc1 = (none, []) ∧
    (exTimeoutClient rtiSrc1.url = NetOutcome.timeout) ∧
    fetchNetwork exTimeoutClient exExtract 0 [] rtiSrc1 = (none, []) ∧
    (exNetErrClient rtiSrc1.url = NetOutcome.netError) ∧
    fetchNetwork exNetErrClient exExtract 0 [] rtiSrc1 = (none, []) ∧
    (exErrClient rtiSrc1.url = NetOutcome.otherError) ∧
    fetchNetwork exErrClient exExtract 0 [] rtiSrc1 = (none, []) ∧
    fetchOneNetCalls 0 [] rtiSrc1 ≤ 1 ∧
    (([] : List String).length < 2) ∧
    acceptLoop [(rtiSrc1, none)] [] [] = acceptLoop [] [] [] :=
  ⟨by decide, by decide,
   (C5_failure_absence exClient404 exExtract 0 [] rtiSrc1).1 404 "" (by decide) (by decide),
   by decide,
   (C5_failure_absence exTimeoutClient exExtract 0 [] rtiSrc1).2.1 (by decide),
   by decide,
   (C5_failure_absence exNetErrClient exExtract 0 [] rtiSrc1).2.2.1 (by decide),
   by decide,
   (C5_failure_absence exErrClient exExtract 0 [] rtiSrc1).2.2.2.1 (by decide),
   (C5_failure_absence exClient404 exExtract 0 [] rtiSrc1).2.2.2.2.1,
   by decide,
   (C5_failure_absence exClient404 exExtract 0 [] rtiSrc1).2.2.2.2.2 [] [] [] (by decide)⟩

/-- C6: a fetch answered with HTTP 200 whose extracted text is shorter than
`MIN_CONTENT_LEN` (100 characters) returns the absence value `none` and leaves
the cache exactly unchanged. -/
theorem C6_too_short_not_cached (client : String → NetOutcome)
    (extract : String → String) (now : Nat) (cache : Cache) (src : Source)
    (body : String) (h200 : client src.url = .response 200 body)
    (hshort : (extract body).length < MIN_CONTENT_LEN) :
    fetchNetwork client extract now cache src = (none, cache) := by
  unfold fetchNetwork
  rw [h200]
  simp [hshort]

/-- Witness for C6: a 200 response whose extraction has 80 characters is
rejected and not cached. -/
theorem C6_too_short_not_cached_witness :
    (exClientOk rtiSrc1.url = NetOutcome.response 200 exBody) ∧
    ((exShortExtract exBody).length < MIN_CONTENT_LEN) ∧
    fetchNetwork exClientOk exShortExtract 7 [] rtiSrc1 = (none, []) :=
  ⟨by decide, by decide,
   C6_too_short_not_cached exClientOk exShortExtract 7 [] rtiSrc1 exBody
     (by decide) (by decide)⟩

/-- C7: an unconfigured intent makes the fusion engine return `("", [])`
immediately — no error is raised, the cache is untouched, and no fetch is
dispatched (the result does not depend on the network oracle). -/
theorem C7_unconfigured_intent (client : String → NetOutcome)
    (extract : String → String) (now : Nat) (cache : Cache) (intent : String)
    (h : getSources intent = []) :
    fetchGovernmentContext client extract now cache intent = (("", []), cache) := by
  unfold fetchGovernmentContext
  rw [h]

/-- Witness for C7 at the topic `"NoSuchTopic"`. -/
theorem C7_unconfigured_intent_witness :
    getSources "NoSuchTopic" = [] ∧
    fetchGovernmentContext exClientOk exExtract 0 [] "NoSuchTopic" = (("", []), []) :=
  ⟨by decide, C7_unconfigured_intent exClientOk exExtract 0 [] "NoSuchTopic" (by decide)⟩

/-- C9: when the top-1 semantic query yields no metadata (a falsy or empty
`metadatas` field) or the metadata dict of the nearest chunk lacks a `"topic"`
key, `_call_groq_analyze` silently keeps `"RTI"` as the dominant topic; the
Lean function `dominantIntent` is total, so a dominant topic is defined for
every query. -/
theorem C9_default_topic :
    dominantIntent none = "RTI" ∧
    dominantIntent (some []) = "RTI" ∧
    (∀ rest : List (List Metadata), dominantIntent (some ([] :: rest)) = "RTI") ∧
    (∀ (md : Metadata) (inner : List Metadata) (rest : List (List Metadata)),
      md.lookup "topic" = none →
      dominantIntent (some ((md :: inner) :: rest)) = "RTI") := by
  refine ⟨rfl, rfl, fun rest => rfl, fun md inner rest h => ?_⟩
  simp [dominantIntent, h]

/-- Witness for C9 at a metadata dict that has no `"topic"` key. -/
theorem C9_default_topic_witness :
    ([("section", "6(1)")] : Metadata).lookup "topic" = none ∧
    dominantIntent (some [[[("section", "6(1)")]]]) = "RTI" :=
  ⟨by decide, C9_default_topic.2.2.2 [("section", "6(1)")] [] [] (by decide)⟩

/-- C2 is false of the code: `fetch_government_context` awaits
`asyncio.gather(*tasks)`, which resolves only once every task has resolved.
Concretely, with every RTI URL answering 200 (so the first two sources
succeed and are the two accepted), and task durations 1 s, 1 s and 100 s, the
engine returns at time 100 — it blocks on the still-pending third fetch
instead of returning at time 1 when the two successes have resolved. -/
theorem C2_early_stop_counterexample :
    (fetchGovernmentContext exClientOk exExtract 0 [] "RTI").1.2 =
      [rtiSrc1.label, rtiSrc2.label] ∧
    exDurSlow3 rtiSrc1.url = 1 ∧ exDurSlow3 rtiSrc2.url = 1 ∧
    exDurSlow3 rtiSrc3.url = 100 ∧
    fetchReturnTime exDurSlow3 "RTI" = 100 ∧
    ¬ fetchReturnTime exDurSlow3 "RTI" ≤
        max (exDurSlow3 rtiSrc1.url) (exDurSlow3 rtiSrc2.url) := by
  refine ⟨by decide, by decide, by decide, by decide, by decide, by decide⟩

/-- C2 (amended): the engine blocks on every dispatched fetch — its return
time is at least the completion time of each of the (up to three) dispatched
tasks, whether or not it succeeds; the two-success rule only caps which results are
accepted into the output, not when the function returns. -/
theorem C2_blocks_on_all_fetches (dur : String → Nat) (intent : String)
    (src : Source) (h : src ∈ (getSources intent).take 3) :
    dur src.url ≤ fetchReturnTime dur intent := by
  unfold fetchReturnTime
  cases hgs : getSources intent with
  | nil =>
      rw [hgs] at h
      simp at h
  | cons s ss =>
      rw [hgs] at h
      exact le_foldr_max _ _ (List.mem_map_of_mem _ h)

/-- Witness for the amended C2 at the slow third RTI source. -/
theorem C2_blocks_on_all_fetches_witness :
    rtiSrc3 ∈ (getSources "RTI").take 3 ∧
    exDurSlow3 rtiSrc3.url ≤ fetchReturnTime exDurSlow3 "RTI" :=
  ⟨by decide, C2_blocks_on_all_fetches exDurSlow3 "RTI" rtiSrc3 (by decide)⟩

/-- C3: results are assembled in configured order: when the first and the
third of the three dispatched sources succeed and the second fails, the
combined text is the text of source 1, then the separator, then the text of source 3,
and the labels are `[label 1, label 3]` in that configured order. -/
theorem C3_configured_order (client : String → NetOutcome) (extract : String → String)
    (now : Nat) (cache : Cache) (intent : String) (s1 s2 s3 : Source)
    (r1 r3 : String) (hs : (getSources intent).take 3 = [s1, s2, s3])
    (hr : (fetchAll client extract now cache [s1, s2, s3]).1 = [some r1, none, some r3])
    (h1 : r1 ≠ "") (h3 : r3 ≠ "") :
    (fetchGovernmentContext client extract now cache intent).1 =
      (r1 ++ "\n\n---\n\n" ++ r3, [s1.label, s3.label]) := by
  cases hgs : getSources intent with
  | nil =>
      rw [hgs] at hs
      simp at hs
  | cons s ss =>
      rw [hgs] at hs
      rw [fetchGovernmentContext_cons client extract now cache intent s ss hgs, hs, hr]
      simp [acceptLoop, h1, h3, joinSep, String.append_assoc]

/-- Witness for C3: under a network where the CIC portal (source 2) answers
404 and the other RTI portals answer 200, the fused RTI context is the text of source 1, the separator, then the text of source 3, labels in configured order. -/
theorem C3_configured_order_witness :
    ((getSources "RTI").take 3 = [rtiSrc1, rtiSrc2, rtiSrc3]) ∧
    ((fetchAll exClient404cic exExtract 0 [] [rtiSrc1, rtiSrc2, rtiSrc3]).1 =
      [some exR1, none, some exR3]) ∧
    exR1 ≠ "" ∧ exR3 ≠ "" ∧
    (fetchGovernmentContext exClient404cic exExtract 0 [] "RTI").1 =
      (exR1 ++ "\n\n---\n\n" ++ exR3, [rtiSrc1.label, rtiSrc3.label]) :=
  ⟨by decide, by decide, by decide, by decide,
   C3_configured_order exClient404cic exExtract 0 [] "RTI" rtiSrc1 rtiSrc2 rtiSrc3
     exR1 exR3 (by decide) (by decide) (by decide) (by decide)⟩

/-- C8: only the first three configured sources are fetched in one engine
call: the fetched slice has length at most 3, and the engine result is
unchanged under any modification of the network oracle away from the first
three URLs — in particular the fourth configured RTI source is never
contacted. -/
theorem C8_only_first_three (client client2 : String → NetOutcome)
    (extract : String → String) (now : Nat) (cache : Cache) (intent : String)
    (hagree : ∀ src ∈ (getSources intent).take 3, client2 src.url = client src.url) :
    ((getSources intent).take 3).length ≤ 3 ∧
    fetchGovernmentContext client2 extract now cache intent =
      fetchGovernmentContext client extract now cache intent := by
  refine ⟨?_, ?_⟩
  · rw [List.length_take]
    omega
  · cases hgs : getSources intent with
    | nil =>
        unfold fetchGovernmentContext
        rw [hgs]
    | cons s ss =>
        have hagree' : ∀ src ∈ (s :: ss).take 3, client2 src.url = client src.url := by
          rw [hgs] at hagree
          exact hagree
        rw [fetchGovernmentContext_cons client2 extract now cache intent s ss hgs,
            fetchGovernmentContext_cons client extract now cache intent s ss hgs,
            fetchAll_congr client client2 extract now ((s :: ss).take 3) cache hagree']

/-- Witness for C8: RTI has four configured sources; an oracle that differs
from `exClientOk` exactly on the fourth URL (timing out there) yields the
same engine result. -/
theorem C8_only_first_three_witness :
    (∀ src ∈ (getSources "RTI").take 3, exClient4thDiff src.url = exClientOk src.url) ∧
    (getSources "RTI").length = 4 ∧
    exClient4thDiff "https://www.indiacode.nic.in/handle/123456789/1879" ≠
      exClientOk "https://www.indiacode.nic.in/handle/123456789/1879" ∧
    (((getSources "RTI").take 3).length ≤ 3 ∧
     fetchGovernmentContext exClient4thDiff exExtract 0 [] "RTI" =
       fetchGovernmentContext exClientOk exExtract 0 [] "RTI") :=
  ⟨by decide, by decide, by decide,
   C8_only_first_three exClientOk exClient4thDiff exExtract 0 [] "RTI" (by decide)⟩

/-- C4: a successful network fetch stamps the cache, and any re-fetch of the
same URL within `CACHE_TTL` (3600 s) of it returns the identical text straight
from the cache — independent of the network and extraction oracles, with the
cache unchanged and zero GETs issued. An entry older than the TTL is never
served: it forces the network path (one GET), whose success overwrites the
stale entry with a fresh timestamp. -/
theorem C4_cache_ttl (client client2 : String → NetOutcome)
    (extract extract2 : String → String) (t0 t1 : Nat) (cache cache1 : Cache)
    (src : Source) (r : String)
    (hnet : fetchNetwork client extract t0 cache src = (some r, cache1))
    (hfresh : t1 - t0 < CACHE_TTL) :
    (fetchOne client2 extract2 t1 cache1 src = (some r, cache1) ∧
     fetchOneNetCalls t1 cache1 src = 0) ∧
    (∀ (text : String) (ts now : Nat) (c : Cache),
      cacheLookup c src.url = some (text, ts) → CACHE_TTL ≤ now - ts →
      fetchOne client extract now c src = fetchNetwork client extract now c src ∧
      fetchOneNetCalls now c src = 1) ∧
    (∀ (now : Nat) (c c2 : Cache) (r2 : String),
      fetchNetwork client extract now c src = (some r2, c2) →
      ∃ text2, cacheLookup c2 src.url = some (text2, now)) := by
  obtain ⟨text, hr, hc⟩ := fetchNetwork_success client extract t0 cache src r cache1 hnet
  refine ⟨⟨?_, ?_⟩, ?_, ?_⟩
  · rw [hr, hc]
    unfold fetchOne
    rw [cacheLookup_cacheInsert]
    exact if_pos hfresh
  · rw [hc]
    unfold fetchOneNetCalls
    rw [cacheLookup_cacheInsert]
    exact if_pos hfresh
  · intro text2 ts now c hlook hstale
    constructor
    · unfold fetchOne
      rw [hlook]
      exact if_neg (by omega)
    · unfold fetchOneNetCalls
      rw [hlook]
      exact if_neg (by omega)
  · intro now c c2 r2 h2
    obtain ⟨text2, -, hc2⟩ := fetchNetwork_success client extract now c src r2 c2 h2
    exact ⟨text2, by rw [hc2, cacheLookup_cacheInsert]⟩

/-- Witness for C4: a fetch of the first RTI source succeeds at time 0; a
re-fetch at time 10 — even against a dead network and a broken extractor —
returns the identical text from the cache with zero GETs; at time 5000 the
entry is stale, the network path is forced (one GET), and its success
restamps the cache entry at 5000. -/
theorem C4_cache_ttl_witness :
    (fetchNetwork exClientOk exExtract 0 [] rtiSrc1 = (some exR1, exCache1)) ∧
    (10 - 0 < CACHE_TTL) ∧
    (fetchOne exTimeoutClient exShortExtract 10 exCache1 rtiSrc1 = (some exR1, exCache1) ∧
     fetchOneNetCalls 10 exCache1 rtiSrc1 = 0) ∧
    (cacheLookup exCache1 rtiSrc1.url = some (exBody, 0)) ∧
    (CACHE_TTL ≤ 5000 - 0) ∧
    (fetchOne exClientOk exExtract 5000 exCache1 rtiSrc1 =
       fetchNetwork exClientOk exExtract 5000 exCache1 rtiSrc1 ∧
     fetchOneNetCalls 5000 exCache1 rtiSrc1 = 1) ∧
    (fetchNetwork exClientOk exExtract 5000 exCache1 rtiSrc1 = (some exR1, exCache5000)) ∧
    (∃ text2, cacheLookup exCache5000 rtiSrc1.url = some (text2, 5000)) :=
  ⟨by decide, by decide,
   (C4_cache_ttl exClientOk exTimeoutClient exExtract exShortExtract 0 10 [] exCache1
      rtiSrc1 exR1 (by decide) (by decide)).1,
   by decide, by decide,
   (C4_cache_ttl exClientOk exTimeoutClient exExtract exShortExtract 0 10 [] exCache1
      rtiSrc1 exR1 (by decide) (by decide)).2.1 exBody 0 5000 exCache1 (by decide) (by decide),
   by decide,
   (C4_cache_ttl exClientOk exTimeoutClient exExtract exShortExtract 0 10 [] exCache1
      rtiSrc1 exR1 (by decide) (by decide)).2.2 5000 exCache1 exCache5000 exR1 (by decide)⟩

/-- C10: invariant of every engine result — at most two labels are used; the
label list is a subsequence of the labels of the first three configured
sources (hence in configured order, each a configured label, without
duplicates); and the combined text is empty exactly when no source was
used. -/
theorem C10_engine_invariant (client : String → NetOutcome)
    (extract : String → String) (now : Nat) (cache : Cache) (intent : String) :
    (fetchGovernmentContext client extract now cache intent).1.2.length ≤ 2 ∧
    (fetchGovernmentContext client extract now cache intent).1.2.Sublist
      (((getSources intent).take 3).map Source.label) ∧
    (fetchGovernmentContext client extract now cache intent).1.2.Nodup ∧
    ((fetchGovernmentContext client extract now cache intent).1.1 = "" ↔
      (fetchGovernmentContext client extract now cache intent).1.2 = []) := by
  cases hgs : getSources intent with
  | nil =>
      have hfix : fetchGovernmentContext client extract now cache intent =
          (("", []), cache) := by
        unfold fetchGovernmentContext
        rw [hgs]
      rw [hfix]
      simp
  | cons s ss =>
      have hnodup := labels_nodup intent
      rw [hgs] at hnodup
      rw [fetchGovernmentContext_cons client extract now cache intent s ss hgs]
      set srcs := (s :: ss).take 3 with hsrcs
      set results := (fetchAll client extract now cache srcs).1 with hres
      dsimp only
      obtain ⟨hlen_eq, hlen_le⟩ := acceptLoop_length (srcs.zip results) [] [] rfl (by simp)
      obtain ⟨t, ht, hsub⟩ := acceptLoop_used_sublist (srcs.zip results) [] []
      have hnempty := acceptLoop_combined_ne_empty (srcs.zip results) [] [] (by simp)
      have hmap : ((srcs.zip results).map fun p => p.1.label) = srcs.map Source.label := by
        have hlen : srcs.length ≤ results.length := by
          rw [hres, fetchAll_length]
        have h1 : ((srcs.zip results).map fun p => p.1.label)
            = ((srcs.zip results).map Prod.fst).map Source.label := by
          rw [List.map_map]
          rfl
        rw [h1, List.map_fst_zip srcs results hlen]
      have htused : (acceptLoop (srcs.zip results) [] []).2 = t := by simpa using ht
      have hsub' : t.Sublist (srcs.map Source.label) := hmap ▸ hsub
      refine ⟨?_, ?_, ?_, ?_⟩
      · omega
      · rw [htused]
        exact hsub'
      · rw [htused]
        exact hnodup.sublist hsub'
      · rcases hcomb : (acceptLoop (srcs.zip results) [] []).1 with _ | ⟨a, rest⟩
        · have hu : (acceptLoop (srcs.zip results) [] []).2 = [] := by
            rw [hcomb] at hlen_eq
            exact List.length_eq_zero.mp hlen_eq.symm
          rw [hu]
          simp [joinSep]
        · have ha : a ≠ "" := hnempty a (by rw [hcomb]; exact List.mem_cons_self _ _)
          have hjoin := joinSep_cons_ne_empty "\n\n---\n\n" a rest ha
          have hu : (acceptLoop (srcs.zip results) [] []).2 ≠ [] := by
            intro hcontra
            rw [hcontra, hcomb] at hlen_eq
            simp at hlen_eq
          constructor
          · intro hx
            exact absurd hx hjoin
          · intro hx
            exact absurd hx hu

end Nyaya
